import Mathlib

/- Verification development for the `DropSizeDistribution` class of the
PyDisdrometer repository (`pydisdrometer/DropSizeDistribution.py`).

The Python module works on dense numpy arrays of 64-bit floats.  We embed the
arithmetic over `ℝ`: the claims under study are about which formula each method
computes, which rows are selected, which bins are read, and which inputs make a
method raise — none of them are about rounding, so real arithmetic is the right
level of abstraction.  Two effects of numpy/Python that the claims do depend on
are modelled explicitly:

* a raised exception (`ValueError`, `IndexError`, `TypeError`, `NameError`) is
  modelled by an `Option`-typed result being `none`;
* a non-finite float produced without an exception (numpy division by zero
  yields `nan` or `±inf` together with a warning, it does not raise) is
  modelled by the `PyFloat` type below.

Each definition carries a comment naming the Python lines it embeds. -/

/-- A numpy scalar float as far as the claims need it: a finite real, a signed
infinity, or `nan`. -/
inductive PyFloat where
  | fin (x : ℝ)
  | inf (pos : Bool)
  | nan

/-- Numpy float division `a / b`: ordinary division for `b ≠ 0`; for `b = 0`
numpy emits a warning and returns `nan` (when `a = 0`) or `±inf` (when
`a ≠ 0`), it does not raise. -/
noncomputable def npDiv (a b : ℝ) : PyFloat :=
  if b = 0 then (if a = 0 then .nan else .inf (decide (0 < a))) else .fin (a / b)

/-- Division of a finite float by a `PyFloat`: `a / ±inf = 0`, `a / nan = nan`. -/
noncomputable def pfDivF (a : ℝ) : PyFloat → PyFloat
  | .fin s => npDiv a s
  | .inf _ => .fin 0
  | .nan => .nan

/-- Addition of a finite float to a `PyFloat`. -/
def pfAddF (x : ℝ) : PyFloat → PyFloat
  | .fin y => .fin (x + y)
  | .inf s => .inf s
  | .nan => .nan

/-- Partial sums of a list, the semantics of `np.cumsum`:
`cumsum [a, b, c] = [a, a + b, a + b + c]`. -/
def cumsum : List ℝ → List ℝ
  | [] => []
  | a :: l => a :: (cumsum l).map (fun c => a + c)

/-- The semantics of `np.dot` on two 1-d arrays of equal length (the §3 length
invariants make all the call sites equal-length). -/
noncomputable def dot (a b : List ℝ) : ℝ := (List.zipWith (· * ·) a b).sum

/-- Embeds `_calc_mth_moment` (DropSizeDistribution.py lines 162-181).

The Python body computes `bin_width` from `bin_edges`, then for each timestep
`t` assigns `mth_moment[t] = np.multiply(np.multiply(dmth, self.Nd), bin_width)`
where `dmth = np.power(self.diameter, m)`.  Note three things about the source:
it multiplies by the whole `T × N` matrix `self.Nd` (not the row `self.Nd[t]`),
it never sums over the bin axis, and it weights by the `bin_edges` differences,
not by `self.spread`.  The right-hand side is therefore a `T × N` matrix, and
numpy only accepts assigning it to the scalar slot `mth_moment[t]` when it has
exactly one element; otherwise the assignment raises `ValueError` (modelled by
`none`).  On inputs satisfying the §3 length invariants this function succeeds
only when `T = 0` (empty result) or `T = 1 ∧ N = 1`. -/
noncomputable def calc_mth_moment (m : ℝ) (time : List ℝ) (Nd : List (List ℝ))
    (bin_edges diameter : List ℝ) : Option (List ℝ) :=
  let bin_width := List.zipWith (fun a b => b - a) bin_edges bin_edges.tail
  let dmth := diameter.map (fun d => Real.rpow d m)
  let matrix := Nd.map (fun row => List.zipWith (· * ·) (List.zipWith (· * ·) dmth row) bin_width)
  if time.length = 0 then some []
  else if matrix.length = 1 ∧ (matrix.getD 0 []).length = 1 then
    some (List.replicate time.length ((matrix.getD 0 []).getD 0 0))
  else none

/-- Density of water, line 201 / line 230 (`rho_w = 1`). -/
noncomputable def rho_w : ℝ := 1

/-- The scaling constant of the liquid-water-content line 202:
`vol_constant = 10e-03 * np.pi / 6.0 * rho_w`. -/
noncomputable def vol_constant : ℝ := 10e-3 * Real.pi / 6 * rho_w

/-- The scaling constant of the cumulative water-content curve in
`_calculate_D0`, line 231: `W_const = 1e-3 * np.pi / 6.0`. -/
noncomputable def W_const : ℝ := 1e-3 * Real.pi / 6

/-- The right-hand side of the `W[t]` assignment, lines 206-207:
`vol_constant * np.dot(np.multiply(self.Nd[t], self.spread), array(self.diameter)**3)`.
The source writes the bare name `array`, which is not defined in the module
(numpy is imported as `np` only), so executing this line raises `NameError`;
the value modelled here is the one the expression denotes with `array` read as
`np.array`. -/
noncomputable def W_value (Ndt spread diameter : List ℝ) : ℝ :=
  vol_constant *
    (List.zipWith (· * ·) (List.zipWith (· * ·) Ndt spread)
      (diameter.map (fun d => d ^ 3))).sum

/-- The cumulative water-content curve of `_calculate_D0`, lines 233-234:
`cum_W = W_const * np.cumsum([N[k]*self.spread[k]*(self.diameter[k]**3) for k in range(0, len(N))])`. -/
noncomputable def cum_W (N spread diameter : List ℝ) : List ℝ :=
  (cumsum (List.zipWith (fun ns d => ns * d ^ 3)
    (List.zipWith (· * ·) N spread) diameter)).map (fun c => W_const * c)

/-- Embeds `list(cum_W < (cum_W[-1]*0.5)).index(False)` of line 235: the first
index whose comparison is `False`; Python `.index` raises `ValueError`
(modelled by `none`) when no entry is `False`. -/
noncomputable def indexFalse (cum : List ℝ) (half : ℝ) : Option ℕ :=
  if false ∈ cum.map (fun c => decide (c < half)) then
    some ((cum.map (fun c => decide (c < half))).findIdx (fun b => !b))
  else none

/-- Python list/array indexing with its negative-index convention:
`l[i] = l[len l + i]` for `i < 0`; out-of-range access raises `IndexError`
(modelled by `none`). -/
def pyGetI (l : List ℝ) (i : ℤ) : Option ℝ :=
  if 0 ≤ i then
    (if i < (l.length : ℤ) then some (l.getD i.toNat 0) else none)
  else
    (if 0 ≤ (l.length : ℤ) + i then some (l.getD ((l.length : ℤ) + i).toNat 0) else none)

/-- Embeds `_calculate_D0` (lines 229-238), parameterized over the cumulative
curve so that the interpolation step can be reasoned about separately:
`cross_pt = list(cum_W < cum_W[-1]*0.5).index(False) - 1`;
`slope = (cum_W[cross_pt+1]-cum_W[cross_pt]) / (diameter[cross_pt+1]-diameter[cross_pt])`;
`run = (0.5*cum_W[-1]-cum_W[cross_pt]) / slope`; result `diameter[cross_pt] + run`.
An empty distribution list makes `cum_W[-1]` raise `IndexError` (`none`).
`D0_interp` is the interpolation step of lines 236-238 once `.index(False)`
has returned `k` (so `cross_pt = k - 1`, an `ℤ`: for `k = 0` the Python
indices `cross_pt` and `cross_pt + 1` are `-1` and `0`). -/
noncomputable def D0_interp (cum diameter : List ℝ) (k : ℕ) : Option PyFloat :=
  match pyGetI cum ((k : ℤ) - 1 + 1), pyGetI cum ((k : ℤ) - 1),
        pyGetI diameter ((k : ℤ) - 1 + 1), pyGetI diameter ((k : ℤ) - 1) with
  | some c1, some c0, some d1, some d0 =>
    some (pfAddF d0 (pfDivF (0.5 * cum.getD (cum.length - 1) 0 - c0) (npDiv (c1 - c0) (d1 - d0))))
  | _, _, _, _ => none

noncomputable def D0_core (cum diameter : List ℝ) : Option PyFloat :=
  if cum.length = 0 then none
  else
    match indexFalse cum (cum.getD (cum.length - 1) 0 * 0.5) with
    | none => none
    | some k => D0_interp cum diameter k

/-- Embeds `_calculate_D0(N)` applied to one timestep's distribution `N`. -/
noncomputable def calculate_D0 (N spread diameter : List ℝ) : Option PyFloat :=
  D0_core (cum_W N spread diameter) diameter

/-- Embeds `__get_last_nonzero` (lines 213-227): `np.max(N.nonzero())`.  The
nonzero indices of `N` are listed in increasing order, so their maximum is the
last one; when `N` has no nonzero entry, `np.max` of the empty index array
raises `ValueError` (modelled by `none`). -/
noncomputable def get_last_nonzero (N : List ℝ) : Option ℕ :=
  let nz := (List.range N.length).filter (fun i => decide (N.getD i 0 ≠ 0))
  if nz = [] then none else some (nz.foldl max 0)

/-- Embeds the `Dm` assignment of line 203:
`self.Dm = np.divide(self._calc_mth_moment(4), self._calc_mth_moment(3))`.
An exception inside `_calc_mth_moment` propagates (`none`); otherwise the
division is elementwise numpy float division. -/
noncomputable def Dm_line (time : List ℝ) (Nd : List (List ℝ))
    (bin_edges diameter : List ℝ) : Option (List PyFloat) :=
  match calc_mth_moment 4 time Nd bin_edges diameter,
        calc_mth_moment 3 time Nd bin_edges diameter with
  | some m4, some m3 => some (List.zipWith npDiv m4 m3)
  | _, _ => none

/-- Embeds `_mmultiply` (lines 337-345): starts from an all-ones array the
length of the first argument and multiplies all the arguments elementwise. -/
noncomputable def mmultiply (args : List (List ℝ)) : List ℝ :=
  args.foldl (fun acc l => List.zipWith (· * ·) acc l) (List.replicate (args.headD []).length 1)

/-- Embeds `calculate_RR` (lines 240-248).  The first argument is the rain-rate
array held by the object before the call; the method begins with
`self.rain_rate = np.zeros(len(self.time))`, so that prior value is discarded
unread.  Inside the loop, `velocity = 9.65 - 10.3*np.exp(-0.6*self.diameter)`
then `velocity[0] = 0.5`; the `velocity[0]` assignment raises `IndexError`
(`none`) when `diameter` is empty and the loop body runs.  Each entry is
`0.6 * np.pi * 1e-03 * np.sum(self._mmultiply(velocity, self.Nd[t], self.spread,
np.array(self.diameter) ** 3))`. -/
noncomputable def calculate_RR (rain_rate_prior : Option (List ℝ)) (time : List ℝ)
    (Nd : List (List ℝ)) (spread diameter : List ℝ) : Option (List ℝ) :=
  if time.length = 0 then some []
  else
    match diameter with
    | [] => none
    | _ :: drest =>
      let velocity : List ℝ := 0.5 :: drest.map (fun d => 9.65 - 10.3 * Real.exp (-0.6 * d))
      some ((List.range time.length).map (fun t =>
        0.6 * Real.pi * 1e-3 *
          (mmultiply [velocity, Nd.getD t [], spread, diameter.map (fun d => d ^ 3)]).sum))

/-- Embeds `_idb` (lines 331-335): `np.power(10, np.multiply(0.1, db))`. -/
noncomputable def idb (db : ℝ) : ℝ := (10 : ℝ) ^ (0.1 * db)

/-- The boolean mask of a numpy comparison `x > 0`. -/
noncomputable def gt0mask (x : List ℝ) : List Bool := x.map (fun v => decide (0 < v))

/-- Embeds `np.logical_and` on boolean masks. -/
def logical_and (a b : List Bool) : List Bool := List.zipWith (fun p q => p && q) a b

/-- Embeds numpy boolean-mask indexing `x[filt]`: the entries of `x` at the
`true` positions of the mask, in order. -/
def npselect (x : List ℝ) (mask : List Bool) : List ℝ :=
  ((x.zip mask).filter (fun p => p.2)).map (fun p => p.1)

/-- Embeds the data-construction part of `calc_R_kdp_relationship` (lines
250-263): `filt = np.logical_and(self.Kdp > 0, self.rain_rate > 0)`, then
`expfit(self.Kdp[filt], self.rain_rate[filt])`.  The pair returned here is the
pair of arrays handed to the external fitting routine `expfit`. -/
noncomputable def calc_R_kdp_data (Kdp rain_rate : List ℝ) : List ℝ × List ℝ :=
  let filt := logical_and (gt0mask Kdp) (gt0mask rain_rate)
  (npselect Kdp filt, npselect rain_rate filt)

/-- Embeds the data-construction part of `calc_R_Zh_relationship` (lines
265-275): `expfit(np.power(10, 0.1 * self.Zh[self.rain_rate > 0]),
self.rain_rate[self.rain_rate > 0])`. -/
noncomputable def calc_R_Zh_data (Zh rain_rate : List ℝ) : List ℝ × List ℝ :=
  ((npselect Zh (gt0mask rain_rate)).map idb, npselect rain_rate (gt0mask rain_rate))

/-- Embeds the data-construction part of `calc_R_Zh_Zdr_relationship` (lines
277-293): `filt = np.logical_and(np.logical_and(self.rain_rate > 0,
np.greater(self.Zdr, 0)), self.Kdp > 0)` and
`expfit2([self._idb(self.Zh[filt]), self._idb(self.Zdr[filt])],
self.rain_rate[filt])`. -/
noncomputable def calc_R_Zh_Zdr_data (Zh Zdr Kdp rain_rate : List ℝ) :
    (List ℝ × List ℝ) × List ℝ :=
  let filt := logical_and (logical_and (gt0mask rain_rate) (gt0mask Zdr)) (gt0mask Kdp)
  (((npselect Zh filt).map idb, (npselect Zdr filt).map idb), npselect rain_rate filt)

/-- Embeds the data-construction part of `calc_R_Zh_Kdp_relationship` (lines
295-311): the same three-way filter, `expfit2([self._idb(self.Zh[filt]),
self.Kdp[filt]], self.rain_rate[filt])` — `Kdp` is passed unconverted. -/
noncomputable def calc_R_Zh_Kdp_data (Zh Zdr Kdp rain_rate : List ℝ) :
    (List ℝ × List ℝ) × List ℝ :=
  let filt := logical_and (logical_and (gt0mask rain_rate) (gt0mask Zdr)) (gt0mask Kdp)
  (((npselect Zh filt).map idb, npselect Kdp filt), npselect rain_rate filt)

/-- Embeds the data-construction part of `calc_R_Zdr_Kdp_relationship` (lines
313-329): the same three-way filter, `expfit2([self._idb(self.Zdr[filt]),
self.Kdp[filt]], self.rain_rate[filt])` — `Kdp` is passed unconverted. -/
noncomputable def calc_R_Zdr_Kdp_data (Zdr Kdp rain_rate : List ℝ) :
    (List ℝ × List ℝ) × List ℝ :=
  let filt := logical_and (logical_and (gt0mask rain_rate) (gt0mask Zdr)) (gt0mask Kdp)
  (((npselect Zdr filt).map idb, npselect Kdp filt), npselect rain_rate filt)

/-- The attribute state of a `DropSizeDistribution` object as far as the claims
need it.  `Option` on the constructor arguments records a possibly-omitted
(`None`) input; `Option` on `Nt`/`W`/`D0`/`Nw`/`Dmax`/`Dm` records whether the
attribute exists at all (`none` = accessing it raises `AttributeError`). -/
structure DSD where
  time : List ℝ
  Nd : List (List ℝ)
  spread : List ℝ
  rain_rate : Option (List ℝ)
  velocity : Option (List ℝ)
  Z : Option (List ℝ)
  num_particles : Option (List ℝ)
  bin_edges : Option (List ℝ)
  diameter : Option (List ℝ)
  Zh : List ℝ
  Zdr : List ℝ
  Kdp : List ℝ
  Ai : List ℝ
  Nt : Option (List PyFloat)
  W : Option (List PyFloat)
  D0 : Option (List PyFloat)
  Nw : Option (List PyFloat)
  Dmax : Option (List PyFloat)
  Dm : Option (List PyFloat)

/-- Embeds `__init__` (lines 57-110): stores the nine constructor arguments and
creates the four zero-filled radar observable arrays of length `len(time)`.
No other attribute is created by the constructor. -/
def DSD.init (time : List ℝ) (Nd : List (List ℝ)) (spread : List ℝ)
    (rain_rate velocity Z num_particles bin_edges diameter : Option (List ℝ)) : DSD :=
  { time := time, Nd := Nd, spread := spread, rain_rate := rain_rate,
    velocity := velocity, Z := Z, num_particles := num_particles,
    bin_edges := bin_edges, diameter := diameter,
    Zh := List.replicate time.length 0, Zdr := List.replicate time.length 0,
    Kdp := List.replicate time.length 0, Ai := List.replicate time.length 0,
    Nt := none, W := none, D0 := none, Nw := none, Dmax := none, Dm := none }

/-- Embeds `calc_dsd_parameterization` (lines 183-211).  Returns the updated
object state together with `true` when the call raised an exception.  Trace of
the source: lines 194-199 create the six zero-filled parameter arrays; line 203
assigns `Dm = np.divide(_calc_mth_moment(4), _calc_mth_moment(3))`, whose
moment calls first build `bin_width` from `self.bin_edges` (a `TypeError` when
that attribute is `None`) and, when `len(time) > 0`, evaluate
`np.power(self.diameter, m)` (a `TypeError` when `None`) and then raise
`ValueError` unless the un-summed moment matrix has exactly one element; the
loop of lines 204-211 then sets `Nt[t]` and immediately raises `NameError` on
line 207, whose right-hand side uses the undefined name `array` (numpy is
imported as `np` only), so `W`, `D0`, `Nw` and `Dmax` keep their zeros and only
`Nt[0]` is ever written.  When `len(time) = 0` every loop is empty and the call
succeeds with six empty arrays.  The `method` argument is never read by the
source body. -/
noncomputable def calc_dsd_parameterization (method : String) (st : DSD) : DSD × Bool :=
  let T := st.time.length
  let zs : List PyFloat := List.replicate T (PyFloat.fin 0)
  let st1 := { st with Nt := some zs, W := some zs, D0 := some zs,
                       Nw := some zs, Dmax := some zs, Dm := some zs }
  match st.bin_edges with
  | none => (st1, true)
  | some be =>
    if T = 0 then (st1, false)
    else
      match st.diameter with
      | none => (st1, true)
      | some di =>
        match calc_mth_moment 4 st.time st.Nd be di,
              calc_mth_moment 3 st.time st.Nd be di with
        | some m4, some m3 =>
          let st2 := { st1 with Dm := some (List.zipWith npDiv m4 m3) }
          ({ st2 with Nt := some (zs.set 0 (PyFloat.fin (dot st.spread (st.Nd.getD 0 [])))) }, true)
        | _, _ => (st1, true)

/- ### General helper lemmas -/

theorem cumsum_length (l : List ℝ) : (cumsum l).length = l.length := by
  induction l with
  | nil => rfl
  | cons a t ih => simp [cumsum, ih]

theorem getD_map_of_lt (f : ℝ → ℝ) (l : List ℝ) {k : ℕ} (hk : k < l.length) :
    (l.map f).getD k 0 = f (l.getD k 0) := by
  rw [List.getD_eq_getElem _ _ (by simpa using hk), List.getElem_map,
    List.getD_eq_getElem _ _ hk]

theorem cumsum_getD (l : List ℝ) {k : ℕ} (hk : k < l.length) :
    (cumsum l).getD k 0 = ∑ i ∈ Finset.range (k + 1), l.getD i 0 := by
  induction l generalizing k with
  | nil => simp at hk
  | cons a t ih =>
    cases k with
    | zero => simp [cumsum]
    | succ k =>
      have hk' : k < t.length := by simpa using hk
      have hmapD : ((cumsum t).map (fun c => a + c)).getD k 0 = a + (cumsum t).getD k 0 :=
        getD_map_of_lt _ _ (by rw [cumsum_length]; exact hk')
      rw [cumsum, List.getD_cons_succ, hmapD, ih hk',
        Finset.sum_range_succ' (fun i => (a :: t).getD i 0) (k + 1)]
      simp [add_comm]

theorem findIdx_false_of (m : List Bool) (k : ℕ) (hk : k < m.length)
    (h1 : ∀ j, j < k → m.getD j false = true) (h2 : m.getD k false = false) :
    false ∈ m ∧ m.findIdx (fun b => !b) = k := by
  induction m generalizing k with
  | nil => simp at hk
  | cons b t ih =>
    cases k with
    | zero =>
      have hb : b = false := by simpa using h2
      subst hb
      exact ⟨by simp, by simp [List.findIdx_cons]⟩
    | succ k =>
      have hb : b = true := by simpa using h1 0 (Nat.succ_pos k)
      subst hb
      have hk' : k < t.length := by simpa using hk
      have h1' : ∀ j, j < k → t.getD j false = true := fun j hj => by
        simpa using h1 (j + 1) (by omega)
      have h2' : t.getD k false = false := by simpa using h2
      obtain ⟨hmem, hidx⟩ := ih k hk' h1' h2'
      exact ⟨List.mem_cons_of_mem _ hmem, by simp [List.findIdx_cons, hidx]⟩

theorem indexFalse_eq (cum : List ℝ) (half : ℝ) (k : ℕ) (hk : k < cum.length)
    (h1 : ∀ j, j < k → cum.getD j 0 < half) (h2 : ¬ cum.getD k 0 < half) :
    indexFalse cum half = some k := by
  have hmask : ∀ j, j < cum.length →
      (cum.map (fun c => decide (c < half))).getD j false = decide (cum.getD j 0 < half) := by
    intro j hj
    rw [List.getD_eq_getElem _ _ (by simpa using hj), List.getElem_map,
      List.getD_eq_getElem _ _ hj]
  obtain ⟨hmem, hidx⟩ := findIdx_false_of (cum.map fun c => decide (c < half)) k
    (by simpa using hk)
    (fun j hj => by rw [hmask j (lt_trans hj hk)]; simpa using h1 j hj)
    (by rw [hmask k hk]; simpa using h2)
  rw [indexFalse, if_pos hmem, hidx]

theorem pyGetI_natCast (l : List ℝ) (k : ℕ) (hk : k < l.length) :
    pyGetI l (k : ℤ) = some (l.getD k 0) := by
  simp [pyGetI, hk]

theorem pyGetI_neg_one (l : List ℝ) (h : l ≠ []) :
    pyGetI l (-1) = some (l.getD (l.length - 1) 0) := by
  have hlen : 0 < l.length := List.length_pos.mpr h
  have ht : ((l.length : ℤ) + -1).toNat = l.length - 1 := by omega
  rw [pyGetI, if_neg (by omega), if_pos (by omega), ht]

theorem cum_W_length (N spread diameter : List ℝ) (hs : spread.length = N.length)
    (hd : diameter.length = N.length) : (cum_W N spread diameter).length = N.length := by
  simp [cum_W, cumsum_length, List.length_zipWith, hs, hd]

theorem cum_W_getD (N spread diameter : List ℝ) (hs : spread.length = N.length)
    (hd : diameter.length = N.length) {k : ℕ} (hk : k < N.length) :
    (cum_W N spread diameter).getD k 0
      = W_const * ∑ i ∈ Finset.range (k + 1),
          N.getD i 0 * spread.getD i 0 * diameter.getD i 0 ^ 3 := by
  have hterms : ∀ i, i < N.length →
      (List.zipWith (fun ns d => ns * d ^ 3) (List.zipWith (· * ·) N spread) diameter).getD i 0
        = N.getD i 0 * spread.getD i 0 * diameter.getD i 0 ^ 3 := by
    intro i hi
    have h1 : i < (List.zipWith (fun ns d => ns * d ^ 3)
        (List.zipWith (· * ·) N spread) diameter).length := by
      simp [List.length_zipWith, hs, hd]; exact hi
    rw [List.getD_eq_getElem _ _ h1]
    simp only [List.getElem_zipWith]
    rw [List.getD_eq_getElem _ _ hi, List.getD_eq_getElem _ _ (by omega : i < spread.length),
      List.getD_eq_getElem _ _ (by omega : i < diameter.length)]
  have hlen : k < (cumsum (List.zipWith (fun ns d => ns * d ^ 3)
      (List.zipWith (· * ·) N spread) diameter)).length := by
    rw [cumsum_length]; simp [List.length_zipWith, hs, hd]; exact hk
  rw [cum_W, getD_map_of_lt _ _ hlen, cumsum_getD _ (by rw [cumsum_length] at hlen; exact hlen)]
  congr 1
  refine Finset.sum_congr rfl (fun i hi => ?_)
  rw [hterms i (by simp at hi; omega)]

theorem terms_all_zero : ∀ (N spread diameter : List ℝ), (∀ x ∈ N, x = 0) →
    ∀ x ∈ List.zipWith (fun ns d => ns * d ^ 3) (List.zipWith (· * ·) N spread) diameter,
      x = 0 := by
  intro N
  induction N with
  | nil => simp
  | cons n Nt ih =>
    intro spread diameter h0 x hx
    match spread, diameter with
    | [], _ => simp at hx
    | _ :: _, [] => simp at hx
    | s :: st, d :: dt =>
      simp only [List.zipWith_cons_cons, List.mem_cons] at hx
      rcases hx with h | h
      · have hn : n = 0 := h0 n (by simp)
        rw [h, hn]; ring
      · exact ih st dt (fun y hy => h0 y (by simp [hy])) x h

theorem cumsum_all_zero (l : List ℝ) (h0 : ∀ x ∈ l, x = 0) : ∀ x ∈ cumsum l, x = 0 := by
  induction l with
  | nil => simp [cumsum]
  | cons a t ih =>
    intro x hx
    have ha : a = 0 := h0 a (by simp)
    simp only [cumsum, List.mem_cons, List.mem_map] at hx
    rcases hx with h | ⟨c, hc, hac⟩
    · rw [h, ha]
    · have hc0 : c = 0 := ih (fun y hy => h0 y (by simp [hy])) c hc
      rw [← hac, ha, hc0, add_zero]

theorem cum_W_all_zero (N spread diameter : List ℝ) (h0 : ∀ x ∈ N, x = 0) :
    ∀ x ∈ cum_W N spread diameter, x = 0 := by
  intro x hx
  simp only [cum_W, List.mem_map] at hx
  obtain ⟨c, hc, hcx⟩ := hx
  have hc0 : c = 0 :=
    cumsum_all_zero _ (terms_all_zero N spread diameter h0) c hc
  rw [← hcx, hc0, mul_zero]

theorem getD_eq_zero_of_all_zero (l : List ℝ) (h0 : ∀ x ∈ l, x = 0) (j : ℕ) :
    l.getD j 0 = 0 := by
  by_cases hj : j < l.length
  · rw [List.getD_eq_getElem _ _ hj]
    exact h0 _ (List.getElem_mem hj)
  · rw [List.getD_eq_default _ _ (by omega)]

theorem D0_interp_eval (cum diameter : List ℝ) (k : ℕ) (c1 c0 d1 d0 : ℝ)
    (h1 : pyGetI cum ((k : ℤ) - 1 + 1) = some c1)
    (h2 : pyGetI cum ((k : ℤ) - 1) = some c0)
    (h3 : pyGetI diameter ((k : ℤ) - 1 + 1) = some d1)
    (h4 : pyGetI diameter ((k : ℤ) - 1) = some d0) :
    D0_interp cum diameter k
      = some (pfAddF d0 (pfDivF (0.5 * cum.getD (cum.length - 1) 0 - c0)
          (npDiv (c1 - c0) (d1 - d0)))) := by
  unfold D0_interp
  rw [h1, h2, h3, h4]

theorem D0_core_eval (cum diameter : List ℝ) (k : ℕ) (hcl : ¬ cum.length = 0)
    (hidx : indexFalse cum (cum.getD (cum.length - 1) 0 * 0.5) = some k) :
    D0_core cum diameter = D0_interp cum diameter k := by
  unfold D0_core
  rw [if_neg hcl, hidx]

/-- Claim C2, counterexample: at the concrete all-zero timestep `[0, 0, 0]` the
`Dmax` computation `__get_last_nonzero` raises `ValueError` (`np.max` of an
empty nonzero-index array, modelled by `none`) instead of producing NaN or an
explicit undefined result, so the claim that the D0 and Dmax computations never
throw on an all-zero timestep is false. -/
theorem get_last_nonzero_all_zero_raises : get_last_nonzero [(0 : ℝ), 0, 0] = none := by
  have hfil : (List.range ([(0 : ℝ), 0, 0]).length).filter
      (fun i => decide (([(0 : ℝ), 0, 0]).getD i 0 ≠ 0)) = [] := by
    apply List.filter_eq_nil_iff.mpr
    intro i _
    simp only [decide_eq_true_eq, ne_eq, not_not]
    exact getD_eq_zero_of_all_zero _ (by simp) i
  simp only [get_last_nonzero, hfil]
  simp

/-- Claim C2 (amended): for a timestep whose distribution is entirely zero,
`_calculate_D0` produces NaN without raising (the interpolation divides zero by
zero), but the `Dmax` computation `__get_last_nonzero` raises an exception
(`np.max` of an empty index array); callers must treat a fully empty timestep
as a boundary condition for `Dmax`. -/
theorem D0_nan_Dmax_raises_on_all_zero (N spread diameter : List ℝ)
    (hne : N ≠ []) (hs : spread.length = N.length) (hd : diameter.length = N.length)
    (h0 : ∀ x ∈ N, x = 0) :
    calculate_D0 N spread diameter = some PyFloat.nan ∧ get_last_nonzero N = none := by
  have hpos : 0 < N.length := List.length_pos.mpr hne
  constructor
  · have hz : ∀ x ∈ cum_W N spread diameter, x = 0 := cum_W_all_zero N spread diameter h0
    have hlen : (cum_W N spread diameter).length = N.length := cum_W_length N spread diameter hs hd
    have hgetD : ∀ j, (cum_W N spread diameter).getD j 0 = 0 :=
      getD_eq_zero_of_all_zero _ hz
    have hcl : ¬ (cum_W N spread diameter).length = 0 := by omega
    have hidx : indexFalse (cum_W N spread diameter)
        ((cum_W N spread diameter).getD ((cum_W N spread diameter).length - 1) 0 * 0.5)
          = some 0 := by
      apply indexFalse_eq _ _ 0 (by omega)
      · intro j hj; exact absurd hj (Nat.not_lt_zero j)
      · rw [hgetD 0, hgetD ((cum_W N spread diameter).length - 1)]; norm_num
    have hc1 : pyGetI (cum_W N spread diameter) (((0 : ℕ) : ℤ) - 1 + 1) = some 0 := by
      rw [show (((0 : ℕ) : ℤ) - 1 + 1) = ((0 : ℕ) : ℤ) by ring,
        pyGetI_natCast _ 0 (by omega), hgetD 0]
    have hc0 : pyGetI (cum_W N spread diameter) (((0 : ℕ) : ℤ) - 1) = some 0 := by
      rw [show (((0 : ℕ) : ℤ) - 1) = (-1 : ℤ) by ring,
        pyGetI_neg_one _ (List.length_pos.mp (by omega)), hgetD]
    have hd1 : pyGetI diameter (((0 : ℕ) : ℤ) - 1 + 1) = some (diameter.getD 0 0) := by
      rw [show (((0 : ℕ) : ℤ) - 1 + 1) = ((0 : ℕ) : ℤ) by ring,
        pyGetI_natCast _ 0 (by omega)]
    have hd0 : pyGetI diameter (((0 : ℕ) : ℤ) - 1)
        = some (diameter.getD (diameter.length - 1) 0) := by
      rw [show (((0 : ℕ) : ℤ) - 1) = (-1 : ℤ) by ring,
        pyGetI_neg_one _ (List.length_pos.mp (by omega))]
    rw [calculate_D0, D0_core_eval _ _ 0 hcl hidx,
      D0_interp_eval _ _ 0 _ _ _ _ hc1 hc0 hd1 hd0, hgetD]
    by_cases hdd : diameter.getD 0 0 - diameter.getD (diameter.length - 1) 0 = 0
    · have h1 : npDiv ((0 : ℝ) - 0)
          (diameter.getD 0 0 - diameter.getD (diameter.length - 1) 0) = PyFloat.nan := by
        rw [npDiv, if_pos hdd, if_pos (by norm_num : (0 : ℝ) - 0 = 0)]
      rw [h1]
      simp [pfDivF, pfAddF]
    · have h1 : npDiv ((0 : ℝ) - 0)
          (diameter.getD 0 0 - diameter.getD (diameter.length - 1) 0) = PyFloat.fin 0 := by
        rw [npDiv, if_neg hdd]
        norm_num
      rw [h1]
      have h2 : pfDivF ((0.5 : ℝ) * 0 - 0) (PyFloat.fin 0) = PyFloat.nan := by
        simp [pfDivF, npDiv]
      rw [h2]
      simp [pfAddF]
  · have hfil : (List.range N.length).filter (fun i => decide (N.getD i 0 ≠ 0)) = [] := by
      apply List.filter_eq_nil_iff.mpr
      intro i _
      simp only [decide_eq_true_eq, ne_eq, not_not]
      exact getD_eq_zero_of_all_zero N h0 i
    simp only [get_last_nonzero, hfil]
    simp

/-- Witness for the C2 theorem at the concrete all-zero two-bin timestep
`Nd[t] = [0, 0]`, `spread = [1, 1]`, `diameter = [1, 2]`. -/
theorem D0_nan_Dmax_raises_on_all_zero_witness :
    ([(0 : ℝ), 0] ≠ []) ∧
      (calculate_D0 [0, 0] [1, 1] [1, 2] = some PyFloat.nan ∧
        get_last_nonzero [(0 : ℝ), 0] = none) :=
  ⟨by simp, D0_nan_Dmax_raises_on_all_zero [0, 0] [1, 1] [1, 2]
    (by simp) (by simp) (by simp) (by simp)⟩

/-- Claim C3, code bug: at `Nd[t] = [20, 1]`, `spread = [1, 1]`,
`diameter = [1, 2]` more than half of the water content lies in the first bin,
so `cross_pt = -1`; Python's negative indexing then silently reads the LAST
bin's cumulative value `cum_W[-1]` and diameter `diameter[-1] = 2` and returns
`2 + (0.5*28*C - 28*C)/((20*C - 28*C)/(1 - 2)) = 0.25` — a value below every
bin — instead of using bin 0's own left edge or flagging the result as
out-of-range. -/
theorem calculate_D0_first_bin_crossing_wraps :
    calculate_D0 [20, 1] [1, 1] [1, 2] = some (PyFloat.fin 0.25) := by
  have hC : 0 < W_const := by rw [W_const]; positivity
  have hcum : cum_W [20, 1] [1, 1] [1, 2] = [W_const * 20, W_const * 28] := by
    simp [cum_W, cumsum]
    norm_num
  rw [calculate_D0, hcum]
  have hidx : indexFalse [W_const * 20, W_const * 28]
      (([W_const * 20, W_const * 28]).getD (([W_const * 20, W_const * 28]).length - 1) 0 * 0.5)
        = some 0 := by
    apply indexFalse_eq _ _ 0 (by simp)
    · intro j hj; exact absurd hj (Nat.not_lt_zero j)
    · simp only [List.length_cons, List.length_nil, List.getD_cons_zero, List.getD_cons_succ]
      push_neg
      nlinarith [hC]
  rw [D0_core_eval _ _ 0 (by simp) hidx]
  have hc1 : pyGetI [W_const * 20, W_const * 28] (((0 : ℕ) : ℤ) - 1 + 1)
      = some (W_const * 20) := by
    rw [show (((0 : ℕ) : ℤ) - 1 + 1) = ((0 : ℕ) : ℤ) by ring, pyGetI_natCast _ 0 (by simp)]
    simp
  have hc0 : pyGetI [W_const * 20, W_const * 28] (((0 : ℕ) : ℤ) - 1)
      = some (W_const * 28) := by
    rw [show (((0 : ℕ) : ℤ) - 1) = (-1 : ℤ) by ring, pyGetI_neg_one _ (by simp)]
    simp
  have hd1 : pyGetI [(1 : ℝ), 2] (((0 : ℕ) : ℤ) - 1 + 1) = some 1 := by
    rw [show (((0 : ℕ) : ℤ) - 1 + 1) = ((0 : ℕ) : ℤ) by ring, pyGetI_natCast _ 0 (by simp)]
    simp
  have hd0 : pyGetI [(1 : ℝ), 2] (((0 : ℕ) : ℤ) - 1) = some 2 := by
    rw [show (((0 : ℕ) : ℤ) - 1) = (-1 : ℤ) by ring, pyGetI_neg_one _ (by simp)]
    simp
  rw [D0_interp_eval _ _ 0 _ _ _ _ hc1 hc0 hd1 hd0]
  have hgl : ([W_const * 20, W_const * 28]).getD
      (([W_const * 20, W_const * 28]).length - 1) 0 = W_const * 28 := by
    simp
  rw [hgl]
  have hslope : npDiv (W_const * 20 - W_const * 28) ((1 : ℝ) - 2)
      = PyFloat.fin (W_const * 8) := by
    rw [npDiv, if_neg (by norm_num : ¬ ((1 : ℝ) - 2 = 0))]
    congr 1
    field_simp
    ring
  rw [hslope]
  have hrun : pfDivF (0.5 * (W_const * 28) - W_const * 28) (PyFloat.fin (W_const * 8))
      = PyFloat.fin (-(7 / 4)) := by
    simp only [pfDivF]
    rw [npDiv, if_neg (by positivity : ¬ (W_const * 8 = 0))]
    congr 1
    field_simp
    ring
  rw [hrun]
  simp only [pfAddF]
  norm_num

/-- Claim C1, code bug: at the spec's own end-to-end scenario (`T = 1`,
`bin_edges = [0,1,2,3,4]`, `diameter = [0.5,1.5,2.5,3.5]`, `Nd = [[0,10,5,0]]`,
which satisfies every §3 length invariant) `_calc_mth_moment(3)` raises
`ValueError` (modelled by `none`) instead of returning the length-1 moment
array `[111.875]`: the body assigns the un-summed `1 × 4` elementwise product
to the scalar slot `mth_moment[t]` (and it multiplies by the whole `Nd` matrix
and by the `bin_edges` differences rather than `spread`). -/
theorem calc_mth_moment_scenario_raises :
    calc_mth_moment 3 [0] [[0, 10, 5, 0]] [0, 1, 2, 3, 4] [0.5, 1.5, 2.5, 3.5] = none := by
  simp [calc_mth_moment]

/-- Claim C6, code bug: at the same invariant-satisfying scenario the `Dm`
assignment `np.divide(_calc_mth_moment(4), _calc_mth_moment(3))` raises
`ValueError` inside `_calc_mth_moment` (modelled by `none`) for any `N ≥ 2`,
so `calc_dsd_parameterization` never reaches the point of setting
`Dm[t] = moment(4)[t] / moment(3)[t]`. -/
theorem Dm_line_scenario_raises :
    Dm_line [0] [[0, 10, 5, 0]] [0, 1, 2, 3, 4] [0.5, 1.5, 2.5, 3.5] = none := by
  simp [Dm_line, calc_mth_moment]

/-- Claim C10: the `method` keyword argument of `calc_dsd_parameterization` is
never read by the body, so two runs that differ only in `method` produce
identical states (in particular identical `Nt`, `W`, `D0`, `Nw`, `Dmax`, `Dm`)
and identical exception behaviour. -/
theorem calc_dsd_parameterization_method_independent :
    ∀ (method1 method2 : String) (st : DSD),
      calc_dsd_parameterization method1 st = calc_dsd_parameterization method2 st :=
  fun _ _ _ => rfl

/-- Claim C9, counterexample: immediately after construction the DSD-parameter
attributes do not exist (`none`; accessing them would raise
`AttributeError`), so it is false that every derived field — in particular
`Nt`, `W`, `D0`, `Nw`, `Dmax`, `Dm` — exists as a zero-filled length-T array at
that point. -/
theorem init_params_absent :
    (DSD.init [0] [[1]] [1] none none none none none none).Nt = none ∧
      (DSD.init [0] [[1]] [1] none none none none none none).W = none ∧
      (DSD.init [0] [[1]] [1] none none none none none none).D0 = none ∧
      (DSD.init [0] [[1]] [1] none none none none none none).Nw = none ∧
      (DSD.init [0] [[1]] [1] none none none none none none).Dmax = none ∧
      (DSD.init [0] [[1]] [1] none none none none none none).Dm = none :=
  ⟨rfl, rfl, rfl, rfl, rfl, rfl⟩

/-- Claim C9 (amended): immediately after construction exactly the four radar
observable fields `Zh`, `Zdr`, `Kdp`, `Ai` exist as zero-filled length-T
arrays, while the DSD parameters `Nt`, `W`, `D0`, `Nw`, `Dmax`, `Dm` do not
exist until `calc_dsd_parameterization` first creates them (zero-filled, then
populated in place); after any call to `calc_dsd_parameterization` all six
exist. -/
theorem init_fields_and_param_creation :
    (∀ (time : List ℝ) (Nd : List (List ℝ)) (spread : List ℝ)
        (rr vel Z nump be di : Option (List ℝ)),
      (DSD.init time Nd spread rr vel Z nump be di).Zh = List.replicate time.length 0 ∧
      (DSD.init time Nd spread rr vel Z nump be di).Zdr = List.replicate time.length 0 ∧
      (DSD.init time Nd spread rr vel Z nump be di).Kdp = List.replicate time.length 0 ∧
      (DSD.init time Nd spread rr vel Z nump be di).Ai = List.replicate time.length 0 ∧
      (DSD.init time Nd spread rr vel Z nump be di).Nt = none ∧
      (DSD.init time Nd spread rr vel Z nump be di).W = none ∧
      (DSD.init time Nd spread rr vel Z nump be di).D0 = none ∧
      (DSD.init time Nd spread rr vel Z nump be di).Nw = none ∧
      (DSD.init time Nd spread rr vel Z nump be di).Dmax = none ∧
      (DSD.init time Nd spread rr vel Z nump be di).Dm = none) ∧
    (∀ (method : String) (st : DSD),
      ((calc_dsd_parameterization method st).1).Nt.isSome ∧
      ((calc_dsd_parameterization method st).1).W.isSome ∧
      ((calc_dsd_parameterization method st).1).D0.isSome ∧
      ((calc_dsd_parameterization method st).1).Nw.isSome ∧
      ((calc_dsd_parameterization method st).1).Dmax.isSome ∧
      ((calc_dsd_parameterization method st).1).Dm.isSome) := by
  constructor
  · intro time Nd spread rr vel Z nump be di
    exact ⟨rfl, rfl, rfl, rfl, rfl, rfl, rfl, rfl, rfl, rfl⟩
  · intro method st
    rcases hbe : st.bin_edges with _ | be
    · simp [calc_dsd_parameterization, hbe]
    · by_cases hT : st.time.length = 0
      · simp [calc_dsd_parameterization, hbe, hT]
      · rcases hdi : st.diameter with _ | di
        · simp [calc_dsd_parameterization, hbe, hT, hdi]
        · rcases h4 : calc_mth_moment 4 st.time st.Nd be di with _ | m4
          · simp [calc_dsd_parameterization, hbe, hT, hdi, h4]
          · rcases h3 : calc_mth_moment 3 st.time st.Nd be di with _ | m3
            · simp [calc_dsd_parameterization, hbe, hT, hdi, h4, h3]
            · simp [calc_dsd_parameterization, hbe, hT, hdi, h4, h3]

theorem sum_zw3 : ∀ (a b c : List ℝ), b.length = a.length → c.length = a.length →
    (List.zipWith (· * ·) (List.zipWith (· * ·) a b) c).sum
      = ∑ i ∈ Finset.range a.length, a.getD i 0 * b.getD i 0 * c.getD i 0 := by
  intro a
  induction a with
  | nil =>
    intro b c _ _
    simp
  | cons x a ih =>
    intro b c hb hc
    match b, c with
    | [], _ => simp at hb
    | _ :: _, [] => simp at hc
    | y :: b, z :: c =>
      have hb' : b.length = a.length := by simpa using hb
      have hc' : c.length = a.length := by simpa using hc
      simp only [List.zipWith_cons_cons, List.sum_cons, List.length_cons]
      rw [ih b c hb' hc',
        Finset.sum_range_succ'
          (fun i => (x :: a).getD i 0 * (y :: b).getD i 0 * (z :: c).getD i 0) a.length]
      simp only [List.getD_cons_succ, List.getD_cons_zero]
      ring

/-- Claim C7, counterexample: at the one-bin input `Nd[t] = [1]`,
`spread = [1]`, `diameter = [1]` the `W` expression evaluates to
`1e-2 * pi / 6` while the cumulative water-content entry used by
`_calculate_D0` evaluates to `1e-3 * pi / 6`; the two code paths do NOT share
one canonical constant, refuting the second half of the claim. -/
theorem W_vs_D0_constant_differ :
    W_value [1] [1] [1] = 1e-2 * Real.pi / 6 ∧
      (cum_W [1] [1] [1]).getD 0 0 = 1e-3 * Real.pi / 6 ∧
      W_value [1] [1] [1] ≠ (cum_W [1] [1] [1]).getD 0 0 := by
  have h1 : W_value [1] [1] [1] = 1e-2 * Real.pi / 6 := by
    simp [W_value, vol_constant, rho_w]
    ring_nf
  have h2 : (cum_W [1] [1] [1]).getD 0 0 = 1e-3 * Real.pi / 6 := by
    simp [cum_W, cumsum, W_const]
  refine ⟨h1, h2, ?_⟩
  rw [h1, h2]
  intro h
  have hpi := Real.pi_pos
  nlinarith

/-- Claim C7 (amended): the `W[t]` expression of lines 206-207 (with the
undefined name `array` read as `np.array`) scales the per-timestep sum
`Σ_i Nd[t,i]·spread_i·diameter_i³` by exactly `C_w = 1e-2·π/6·ρ_w`, but the
cumulative water-content curve of `_calculate_D0` is scaled by the different
constant `1e-3·π/6`, ten times smaller — the two paths do not share a
canonical constant (`_calculate_D0`'s interpolated value is invariant under
that constant, so only `W`'s magnitude is affected). -/
theorem W_and_cum_constants (Ndt spread diameter : List ℝ)
    (hs : spread.length = Ndt.length) (hd : diameter.length = Ndt.length) :
    W_value Ndt spread diameter
      = 1e-2 * Real.pi / 6 *
          ∑ i ∈ Finset.range Ndt.length,
            Ndt.getD i 0 * spread.getD i 0 * diameter.getD i 0 ^ 3 ∧
    (∀ k, k < Ndt.length →
      (cum_W Ndt spread diameter).getD k 0
        = 1e-3 * Real.pi / 6 *
            ∑ i ∈ Finset.range (k + 1),
              Ndt.getD i 0 * spread.getD i 0 * diameter.getD i 0 ^ 3) ∧
    vol_constant = 10 * W_const := by
  refine ⟨?_, ?_, ?_⟩
  · rw [W_value, sum_zw3 Ndt spread (diameter.map (fun d => d ^ 3)) hs (by simpa using hd)]
    have hco : ∀ i ∈ Finset.range Ndt.length,
        Ndt.getD i 0 * spread.getD i 0 * (diameter.map (fun d => d ^ 3)).getD i 0
          = Ndt.getD i 0 * spread.getD i 0 * diameter.getD i 0 ^ 3 := by
      intro i hi
      rw [getD_map_of_lt _ _ (by simp at hi; omega)]
    rw [Finset.sum_congr rfl hco, vol_constant, rho_w]
    ring_nf
  · intro k hk
    rw [cum_W_getD Ndt spread diameter hs hd hk, W_const]
  · rw [vol_constant, W_const, rho_w]
    ring_nf

/-- Witness for the C7 theorem at the concrete input `Nd[t] = [2]`,
`spread = [3]`, `diameter = [1]`. -/
theorem W_and_cum_constants_witness :
    ([(3 : ℝ)]).length = ([(2 : ℝ)]).length ∧
      (W_value [2] [3] [1]
          = 1e-2 * Real.pi / 6 *
              ∑ i ∈ Finset.range ([(2 : ℝ)]).length,
                ([(2 : ℝ)]).getD i 0 * ([(3 : ℝ)]).getD i 0 * ([(1 : ℝ)]).getD i 0 ^ 3 ∧
        (∀ k, k < ([(2 : ℝ)]).length →
          (cum_W [2] [3] [1]).getD k 0
            = 1e-3 * Real.pi / 6 *
                ∑ i ∈ Finset.range (k + 1),
                  ([(2 : ℝ)]).getD i 0 * ([(3 : ℝ)]).getD i 0 * ([(1 : ℝ)]).getD i 0 ^ 3) ∧
        vol_constant = 10 * W_const) :=
  ⟨rfl, W_and_cum_constants [2] [3] [1] rfl rfl⟩

theorem zipWith_one_mul : ∀ (v : List ℝ),
    List.zipWith (· * ·) (List.replicate v.length 1) v = v := by
  intro v
  induction v with
  | nil => rfl
  | cons x t ih => simp only [List.length_cons, List.replicate_succ,
      List.zipWith_cons_cons, one_mul, ih]

theorem sum_zw4 : ∀ (v a s d : List ℝ), a.length = v.length → s.length = v.length →
    d.length = v.length →
    (List.zipWith (· * ·) (List.zipWith (· * ·) (List.zipWith (· * ·) v a) s) d).sum
      = ∑ i ∈ Finset.range v.length,
          v.getD i 0 * a.getD i 0 * s.getD i 0 * d.getD i 0 := by
  intro v
  induction v with
  | nil =>
    intro a s d _ _ _
    simp
  | cons x v ih =>
    intro a s d ha hs hd
    match a, s, d with
    | [], _, _ => simp at ha
    | _ :: _, [], _ => simp at hs
    | _ :: _, _ :: _, [] => simp at hd
    | y :: a, z :: s, w :: d =>
      simp only [List.zipWith_cons_cons, List.sum_cons, List.length_cons]
      rw [ih a s d (by simpa using ha) (by simpa using hs) (by simpa using hd),
        Finset.sum_range_succ'
          (fun i => (x :: v).getD i 0 * (y :: a).getD i 0 * (z :: s).getD i 0 * (w :: d).getD i 0)
          v.length]
      simp only [List.getD_cons_succ, List.getD_cons_zero]
      ring

/-- Claim C5: for every timestep `t`, `calculate_RR` sets
`rain_rate[t] = 0.6·π·1e-3 · Σ_i v_i · Nd[t,i] · spread_i · diameter_i³` with
`v_i = 9.65 - 10.3·exp(-0.6·diameter_i)` for every bin except bin 0, whose
velocity is exactly `0.5`; and the result is independent of whatever
`rain_rate` the object held before the call. -/
theorem calculate_RR_formula (prior : Option (List ℝ)) (time : List ℝ)
    (Nd : List (List ℝ)) (spread diameter : List ℝ)
    (hne : diameter ≠ [])
    (hs : spread.length = diameter.length)
    (hrow : ∀ t, t < time.length → (Nd.getD t []).length = diameter.length) :
    (∀ p1 p2 : Option (List ℝ),
      calculate_RR p1 time Nd spread diameter = calculate_RR p2 time Nd spread diameter) ∧
    calculate_RR prior time Nd spread diameter
      = some ((List.range time.length).map (fun t =>
          0.6 * Real.pi * 1e-3 *
            ∑ i ∈ Finset.range diameter.length,
              (if i = 0 then 0.5 else 9.65 - 10.3 * Real.exp (-0.6 * diameter.getD i 0)) *
                (Nd.getD t []).getD i 0 * spread.getD i 0 * diameter.getD i 0 ^ 3)) := by
  refine ⟨fun p1 p2 => rfl, ?_⟩
  by_cases hT : time.length = 0
  · rw [calculate_RR.eq_def, if_pos hT, hT]
    simp
  · cases diameter with
    | nil => exact absurd rfl hne
    | cons d0 drest =>
      rw [calculate_RR.eq_def, if_neg hT]
      show some _ = some _
      refine congrArg some (List.map_congr_left ?_)
      intro t ht
      have htlt : t < time.length := by simpa using ht
      have hrowt := hrow t htlt
      refine congrArg (fun z => 0.6 * Real.pi * 1e-3 * z) ?_
      set v : List ℝ := 0.5 :: drest.map (fun d => 9.65 - 10.3 * Real.exp (-0.6 * d)) with hv
      have hvlen : v.length = (d0 :: drest).length := by
        simp [hv]
      have hmm : mmultiply [v, Nd.getD t [], spread, (d0 :: drest).map (fun d => d ^ 3)]
          = List.zipWith (· * ·) (List.zipWith (· * ·) (List.zipWith (· * ·) v (Nd.getD t []))
              spread) ((d0 :: drest).map (fun d => d ^ 3)) := by
        simp only [mmultiply, List.foldl_cons, List.foldl_nil, List.headD_cons]
        rw [zipWith_one_mul]
      rw [hmm, sum_zw4 v (Nd.getD t []) spread ((d0 :: drest).map (fun d => d ^ 3))
        (by rw [hvlen]; exact hrowt) (by rw [hvlen]; exact hs) (by simp [hvlen])]
      rw [hvlen]
      refine Finset.sum_congr rfl ?_
      intro i hi
      have hilt : i < (d0 :: drest).length := by simpa using hi
      have hd3 : ((d0 :: drest).map (fun d => d ^ 3)).getD i 0
          = (d0 :: drest).getD i 0 ^ 3 := getD_map_of_lt _ _ hilt
      have hvi : v.getD i 0
          = if i = 0 then 0.5 else 9.65 - 10.3 * Real.exp (-0.6 * (d0 :: drest).getD i 0) := by
        cases i with
        | zero => simp [hv]
        | succ j =>
          have hjlt : j < drest.length := by simpa using hilt
          simp only [hv, List.getD_cons_succ]
          rw [getD_map_of_lt _ _ hjlt]
          simp
      rw [hd3, hvi]

/-- Witness for the C5 theorem at the concrete state `time = [0]`,
`Nd = [[5]]`, `spread = [1]`, `diameter = [2]`, prior `rain_rate = [99]`:
bin 0's velocity is the override `0.5`, not the exponential value. -/
theorem calculate_RR_formula_witness :
    ([(2 : ℝ)] ≠ []) ∧
      ((∀ p1 p2 : Option (List ℝ),
        calculate_RR p1 [0] [[5]] [1] [2] = calculate_RR p2 [0] [[5]] [1] [2]) ∧
      calculate_RR (some [99]) [0] [[5]] [1] [2]
        = some ((List.range ([(0 : ℝ)]).length).map (fun t =>
            0.6 * Real.pi * 1e-3 *
              ∑ i ∈ Finset.range ([(2 : ℝ)]).length,
                (if i = 0 then 0.5 else 9.65 - 10.3 * Real.exp (-0.6 * ([(2 : ℝ)]).getD i 0)) *
                  (([[(5 : ℝ)]]).getD t []).getD i 0 * ([(1 : ℝ)]).getD i 0 *
                    ([(2 : ℝ)]).getD i 0 ^ 3))) :=
  ⟨by simp, calculate_RR_formula (some [99]) [0] [[5]] [1] [2] (by simp) rfl
    (by intro t ht; simp at ht; subst ht; rfl)⟩

theorem zipWith_as_zip_map {α β γ : Type} (f : α → β → γ) :
    ∀ (x : List α) (y : List β), List.zipWith f x y = (x.zip y).map (fun p => f p.1 p.2)
  | [], _ => by simp
  | _ :: _, [] => by simp
  | a :: x, b :: y => by
    simp only [List.zipWith_cons_cons, List.zip_cons_cons, List.map_cons]
    rw [zipWith_as_zip_map f x y]

theorem npselect_map {α : Type} (rows : List α) (proj : α → ℝ) (mf : α → Bool) :
    npselect (rows.map proj) (rows.map mf) = (rows.filter mf).map proj := by
  induction rows with
  | nil => rfl
  | cons r rs ih =>
    simp only [npselect] at ih ⊢
    simp only [List.map_cons, List.zip_cons_cons, List.filter_cons]
    by_cases h : mf r = true
    · simp only [h, if_true, List.map_cons]
      rw [ih]
    · simp only [h, if_false, Bool.false_eq_true]
      rw [ih]

theorem npselect_eq_filter_map {α : Type} (rows : List α) (x : List ℝ) (mask : List Bool)
    (proj : α → ℝ) (mf : α → Bool) (hx : x = rows.map proj) (hm : mask = rows.map mf) :
    npselect x mask = (rows.filter mf).map proj := by
  subst hx hm
  exact npselect_map rows proj mf

theorem mask2_eq (Kdp rain_rate : List ℝ) :
    logical_and (gt0mask Kdp) (gt0mask rain_rate)
      = (Kdp.zip rain_rate).map (fun r => decide (0 < r.1) && decide (0 < r.2)) := by
  rw [logical_and, gt0mask, gt0mask, List.zipWith_map, zipWith_as_zip_map]

theorem maskZh_eq (Zh rain_rate : List ℝ) (h : rain_rate.length ≤ Zh.length) :
    gt0mask rain_rate = (Zh.zip rain_rate).map (fun r => decide (0 < r.2)) := by
  conv_lhs => rw [gt0mask,
    show rain_rate = (Zh.zip rain_rate).map Prod.snd from (List.map_snd_zip _ _ h).symm]
  rw [List.map_map]
  rfl

theorem mask4_eq (Zh Zdr Kdp rain_rate : List ℝ)
    (h1 : Zdr.length = Zh.length) (h2 : Kdp.length = Zh.length)
    (h3 : rain_rate.length = Zh.length) :
    logical_and (logical_and (gt0mask rain_rate) (gt0mask Zdr)) (gt0mask Kdp)
      = (Zh.zip (Zdr.zip (Kdp.zip rain_rate))).map
          (fun r => decide (0 < r.2.2.2) && decide (0 < r.2.1) && decide (0 < r.2.2.1)) := by
  apply List.ext_getElem
  · simp [logical_and, gt0mask, List.length_zipWith, List.length_zip, h1, h2, h3]
  · intro n hn1 hn2
    simp [logical_and, gt0mask, List.getElem_zipWith, List.getElem_map, List.getElem_zip]

theorem mask3_eq (Zdr Kdp rain_rate : List ℝ)
    (h2 : Kdp.length = Zdr.length) (h3 : rain_rate.length = Zdr.length) :
    logical_and (logical_and (gt0mask rain_rate) (gt0mask Zdr)) (gt0mask Kdp)
      = (Zdr.zip (Kdp.zip rain_rate)).map
          (fun r => decide (0 < r.2.2) && decide (0 < r.1) && decide (0 < r.2.1)) := by
  apply List.ext_getElem
  · simp [logical_and, gt0mask, List.length_zipWith, List.length_zip, h2, h3]
  · intro n hn1 hn2
    simp [logical_and, gt0mask, List.getElem_zipWith, List.getElem_map, List.getElem_zip]

/-- Claim C4: in each of the five relationship-fit entry points the rows
handed to the external fitter are exactly the rows surviving the declared
strict-positivity filters, dropped jointly and unclamped:
`calc_R_kdp_relationship` uses exactly the timesteps with `Kdp > 0` and
`rain_rate > 0`, and the dB→linear conversion `10^(0.1·x)` (`_idb`) is applied
exactly to the `Zh` and `Zdr` predictors and never to `Kdp` (or to
`rain_rate`), which are passed through unmodified. -/
theorem fit_filtering_joint_positive (Zh Zdr Kdp rain_rate : List ℝ)
    (h1 : Zdr.length = Zh.length) (h2 : Kdp.length = Zh.length)
    (h3 : rain_rate.length = Zh.length) :
    calc_R_kdp_data Kdp rain_rate
      = (((Kdp.zip rain_rate).filter (fun r => decide (0 < r.1) && decide (0 < r.2))).map
           (fun r => r.1),
         ((Kdp.zip rain_rate).filter (fun r => decide (0 < r.1) && decide (0 < r.2))).map
           (fun r => r.2)) ∧
    calc_R_Zh_data Zh rain_rate
      = (((Zh.zip rain_rate).filter (fun r => decide (0 < r.2))).map (fun r => idb r.1),
         ((Zh.zip rain_rate).filter (fun r => decide (0 < r.2))).map (fun r => r.2)) ∧
    calc_R_Zh_Zdr_data Zh Zdr Kdp rain_rate
      = ((((Zh.zip (Zdr.zip (Kdp.zip rain_rate))).filter
             (fun r => decide (0 < r.2.2.2) && decide (0 < r.2.1) && decide (0 < r.2.2.1))).map
             (fun r => idb r.1),
          ((Zh.zip (Zdr.zip (Kdp.zip rain_rate))).filter
             (fun r => decide (0 < r.2.2.2) && decide (0 < r.2.1) && decide (0 < r.2.2.1))).map
             (fun r => idb r.2.1)),
         ((Zh.zip (Zdr.zip (Kdp.zip rain_rate))).filter
             (fun r => decide (0 < r.2.2.2) && decide (0 < r.2.1) && decide (0 < r.2.2.1))).map
             (fun r => r.2.2.2)) ∧
    calc_R_Zh_Kdp_data Zh Zdr Kdp rain_rate
      = ((((Zh.zip (Zdr.zip (Kdp.zip rain_rate))).filter
             (fun r => decide (0 < r.2.2.2) && decide (0 < r.2.1) && decide (0 < r.2.2.1))).map
             (fun r => idb r.1),
          ((Zh.zip (Zdr.zip (Kdp.zip rain_rate))).filter
             (fun r => decide (0 < r.2.2.2) && decide (0 < r.2.1) && decide (0 < r.2.2.1))).map
             (fun r => r.2.2.1)),
         ((Zh.zip (Zdr.zip (Kdp.zip rain_rate))).filter
             (fun r => decide (0 < r.2.2.2) && decide (0 < r.2.1) && decide (0 < r.2.2.1))).map
             (fun r => r.2.2.2)) ∧
    calc_R_Zdr_Kdp_data Zdr Kdp rain_rate
      = ((((Zdr.zip (Kdp.zip rain_rate)).filter
             (fun r => decide (0 < r.2.2) && decide (0 < r.1) && decide (0 < r.2.1))).map
             (fun r => idb r.1),
          ((Zdr.zip (Kdp.zip rain_rate)).filter
             (fun r => decide (0 < r.2.2) && decide (0 < r.1) && decide (0 < r.2.1))).map
             (fun r => r.2.1)),
         ((Zdr.zip (Kdp.zip rain_rate)).filter
             (fun r => decide (0 < r.2.2) && decide (0 < r.1) && decide (0 < r.2.1))).map
             (fun r => r.2.2)) := by
  have k1 : Kdp = (Kdp.zip rain_rate).map (fun r => r.1) :=
    (List.map_fst_zip _ _ (by omega)).symm
  have k2 : rain_rate = (Kdp.zip rain_rate).map (fun r => r.2) :=
    (List.map_snd_zip _ _ (by omega)).symm
  have z1 : Zh = (Zh.zip rain_rate).map (fun r => r.1) :=
    (List.map_fst_zip _ _ (by omega)).symm
  have z2 : rain_rate = (Zh.zip rain_rate).map (fun r => r.2) :=
    (List.map_snd_zip _ _ (by omega)).symm
  have q0 : (Zh.zip (Zdr.zip (Kdp.zip rain_rate))).map Prod.snd
      = Zdr.zip (Kdp.zip rain_rate) :=
    List.map_snd_zip _ _ (by simp [List.length_zip]; omega)
  have q0' : (Zdr.zip (Kdp.zip rain_rate)).map Prod.snd = Kdp.zip rain_rate :=
    List.map_snd_zip _ _ (by simp [List.length_zip]; omega)
  have q1 : Zh = (Zh.zip (Zdr.zip (Kdp.zip rain_rate))).map (fun r => r.1) :=
    (List.map_fst_zip _ _ (by simp [List.length_zip]; omega)).symm
  have q2 : Zdr = (Zh.zip (Zdr.zip (Kdp.zip rain_rate))).map (fun r => r.2.1) := by
    have hmm : (Zh.zip (Zdr.zip (Kdp.zip rain_rate))).map
        (fun r => r.2.1)
        = ((Zh.zip (Zdr.zip (Kdp.zip rain_rate))).map Prod.snd).map Prod.fst := by
      rw [List.map_map]
      rfl
    rw [hmm, q0]
    exact (List.map_fst_zip _ _ (by simp [List.length_zip]; omega)).symm
  have q3 : Kdp = (Zh.zip (Zdr.zip (Kdp.zip rain_rate))).map (fun r => r.2.2.1) := by
    have hmm : (Zh.zip (Zdr.zip (Kdp.zip rain_rate))).map (fun r => r.2.2.1)
        = (((Zh.zip (Zdr.zip (Kdp.zip rain_rate))).map Prod.snd).map Prod.snd).map Prod.fst := by
      rw [List.map_map, List.map_map]
      rfl
    rw [hmm, q0, q0']
    exact (List.map_fst_zip _ _ (by omega)).symm
  have q4 : rain_rate = (Zh.zip (Zdr.zip (Kdp.zip rain_rate))).map (fun r => r.2.2.2) := by
    have hmm : (Zh.zip (Zdr.zip (Kdp.zip rain_rate))).map (fun r => r.2.2.2)
        = (((Zh.zip (Zdr.zip (Kdp.zip rain_rate))).map Prod.snd).map Prod.snd).map Prod.snd := by
      rw [List.map_map, List.map_map]
      rfl
    rw [hmm, q0, q0']
    exact (List.map_snd_zip _ _ (by omega)).symm
  have p1 : Zdr = (Zdr.zip (Kdp.zip rain_rate)).map (fun r => r.1) :=
    (List.map_fst_zip _ _ (by simp [List.length_zip]; omega)).symm
  have p2 : Kdp = (Zdr.zip (Kdp.zip rain_rate)).map (fun r => r.2.1) := by
    have hmm : (Zdr.zip (Kdp.zip rain_rate)).map (fun r => r.2.1)
        = ((Zdr.zip (Kdp.zip rain_rate)).map Prod.snd).map Prod.fst := by
      rw [List.map_map]
      rfl
    rw [hmm, q0']
    exact (List.map_fst_zip _ _ (by omega)).symm
  have p3 : rain_rate = (Zdr.zip (Kdp.zip rain_rate)).map (fun r => r.2.2) := by
    have hmm : (Zdr.zip (Kdp.zip rain_rate)).map (fun r => r.2.2)
        = ((Zdr.zip (Kdp.zip rain_rate)).map Prod.snd).map Prod.snd := by
      rw [List.map_map]
      rfl
    rw [hmm, q0']
    exact (List.map_snd_zip _ _ (by omega)).symm
  have m2 := mask2_eq Kdp rain_rate
  have mzh := maskZh_eq Zh rain_rate (by omega)
  have m4 := mask4_eq Zh Zdr Kdp rain_rate h1 h2 h3
  have m3 := mask3_eq Zdr Kdp rain_rate (by omega) (by omega)
  refine ⟨?_, ?_, ?_, ?_, ?_⟩
  · simp only [calc_R_kdp_data, Prod.mk.injEq]
    exact ⟨npselect_eq_filter_map _ _ _ _ _ k1 m2, npselect_eq_filter_map _ _ _ _ _ k2 m2⟩
  · simp only [calc_R_Zh_data, Prod.mk.injEq]
    constructor
    · rw [npselect_eq_filter_map _ _ _ _ _ z1 mzh, List.map_map]
      rfl
    · exact npselect_eq_filter_map _ _ _ _ _ z2 mzh
  · simp only [calc_R_Zh_Zdr_data, Prod.mk.injEq]
    refine ⟨⟨?_, ?_⟩, ?_⟩
    · rw [npselect_eq_filter_map _ _ _ _ _ q1 m4, List.map_map]
      rfl
    · rw [npselect_eq_filter_map _ _ _ _ _ q2 m4, List.map_map]
      rfl
    · exact npselect_eq_filter_map _ _ _ _ _ q4 m4
  · simp only [calc_R_Zh_Kdp_data, Prod.mk.injEq]
    refine ⟨⟨?_, ?_⟩, ?_⟩
    · rw [npselect_eq_filter_map _ _ _ _ _ q1 m4, List.map_map]
      rfl
    · exact npselect_eq_filter_map _ _ _ _ _ q3 m4
    · exact npselect_eq_filter_map _ _ _ _ _ q4 m4
  · simp only [calc_R_Zdr_Kdp_data, Prod.mk.injEq]
    refine ⟨⟨?_, ?_⟩, ?_⟩
    · rw [npselect_eq_filter_map _ _ _ _ _ p1 m3, List.map_map]
      rfl
    · exact npselect_eq_filter_map _ _ _ _ _ p2 m3
    · exact npselect_eq_filter_map _ _ _ _ _ p3 m3

/-- Witness for the C4 theorem at the concrete arrays `Zh = [10, 20]`,
`Zdr = [1, -1]`, `Kdp = [2, 3]`, `rain_rate = [4, -5]`. -/
theorem fit_filtering_joint_positive_witness :
    ([(1 : ℝ), -1]).length = ([(10 : ℝ), 20]).length ∧
    (calc_R_kdp_data ([(2 : ℝ), 3]) ([(4 : ℝ), -5])
      = (((([(2 : ℝ), 3]).zip ([(4 : ℝ), -5])).filter (fun r => decide (0 < r.1) && decide (0 < r.2))).map
           (fun r => r.1),
         ((([(2 : ℝ), 3]).zip ([(4 : ℝ), -5])).filter (fun r => decide (0 < r.1) && decide (0 < r.2))).map
           (fun r => r.2)) ∧
    calc_R_Zh_data ([(10 : ℝ), 20]) ([(4 : ℝ), -5])
      = (((([(10 : ℝ), 20]).zip ([(4 : ℝ), -5])).filter (fun r => decide (0 < r.2))).map (fun r => idb r.1),
         ((([(10 : ℝ), 20]).zip ([(4 : ℝ), -5])).filter (fun r => decide (0 < r.2))).map (fun r => r.2)) ∧
    calc_R_Zh_Zdr_data ([(10 : ℝ), 20]) ([(1 : ℝ), -1]) ([(2 : ℝ), 3]) ([(4 : ℝ), -5])
      = ((((([(10 : ℝ), 20]).zip (([(1 : ℝ), -1]).zip (([(2 : ℝ), 3]).zip ([(4 : ℝ), -5])))).filter
             (fun r => decide (0 < r.2.2.2) && decide (0 < r.2.1) && decide (0 < r.2.2.1))).map
             (fun r => idb r.1),
          ((([(10 : ℝ), 20]).zip (([(1 : ℝ), -1]).zip (([(2 : ℝ), 3]).zip ([(4 : ℝ), -5])))).filter
             (fun r => decide (0 < r.2.2.2) && decide (0 < r.2.1) && decide (0 < r.2.2.1))).map
             (fun r => idb r.2.1)),
         ((([(10 : ℝ), 20]).zip (([(1 : ℝ), -1]).zip (([(2 : ℝ), 3]).zip ([(4 : ℝ), -5])))).filter
             (fun r => decide (0 < r.2.2.2) && decide (0 < r.2.1) && decide (0 < r.2.2.1))).map
             (fun r => r.2.2.2)) ∧
    calc_R_Zh_Kdp_data ([(10 : ℝ), 20]) ([(1 : ℝ), -1]) ([(2 : ℝ), 3]) ([(4 : ℝ), -5])
      = ((((([(10 : ℝ), 20]).zip (([(1 : ℝ), -1]).zip (([(2 : ℝ), 3]).zip ([(4 : ℝ), -5])))).filter
             (fun r => decide (0 < r.2.2.2) && decide (0 < r.2.1) && decide (0 < r.2.2.1))).map
             (fun r => idb r.1),
          ((([(10 : ℝ), 20]).zip (([(1 : ℝ), -1]).zip (([(2 : ℝ), 3]).zip ([(4 : ℝ), -5])))).filter
             (fun r => decide (0 < r.2.2.2) && decide (0 < r.2.1) && decide (0 < r.2.2.1))).map
             (fun r => r.2.2.1)),
         ((([(10 : ℝ), 20]).zip (([(1 : ℝ), -1]).zip (([(2 : ℝ), 3]).zip ([(4 : ℝ), -5])))).filter
             (fun r => decide (0 < r.2.2.2) && decide (0 < r.2.1) && decide (0 < r.2.2.1))).map
             (fun r => r.2.2.2)) ∧
    calc_R_Zdr_Kdp_data ([(1 : ℝ), -1]) ([(2 : ℝ), 3]) ([(4 : ℝ), -5])
      = ((((([(1 : ℝ), -1]).zip (([(2 : ℝ), 3]).zip ([(4 : ℝ), -5]))).filter
             (fun r => decide (0 < r.2.2) && decide (0 < r.1) && decide (0 < r.2.1))).map
             (fun r => idb r.1),
          ((([(1 : ℝ), -1]).zip (([(2 : ℝ), 3]).zip ([(4 : ℝ), -5]))).filter
             (fun r => decide (0 < r.2.2) && decide (0 < r.1) && decide (0 < r.2.1))).map
             (fun r => r.2.1)),
         ((([(1 : ℝ), -1]).zip (([(2 : ℝ), 3]).zip ([(4 : ℝ), -5]))).filter
             (fun r => decide (0 < r.2.2) && decide (0 < r.1) && decide (0 < r.2.1))).map
             (fun r => r.2.2))) :=
  ⟨rfl, fit_filtering_joint_positive [(10 : ℝ), 20] [(1 : ℝ), -1] [(2 : ℝ), 3]
    [(4 : ℝ), -5] rfl rfl rfl⟩

/-- Claim C8: for a timestep whose half-mass crossing index `k` lies beyond
the first bin (`1 ≤ k`, and the distribution is then necessarily not all
zero), `_calculate_D0` builds the cumulative curve
`cumW[j] = C_w·Σ_{i≤j} Nd[t,i]·spread_i·diameter_i³` (with `C_w = W_const`),
takes `cross = k - 1` where `k` is the smallest index with
`cumW[k] ≥ 0.5·cumW[N-1]`, and returns
`diameter[cross] + (0.5·cumW[N-1] - cumW[cross]) /
((cumW[cross+1] - cumW[cross]) / (diameter[cross+1] - diameter[cross]))`. -/
theorem calculate_D0_interpolation (N spread diameter : List ℝ) (k : ℕ)
    (hs : spread.length = N.length) (hd : diameter.length = N.length)
    (hk1 : 1 ≤ k) (hk : k < N.length)
    (hmono : diameter.getD (k - 1) 0 < diameter.getD k 0)
    (hbefore : ∀ j, j < k →
      (cum_W N spread diameter).getD j 0
        < (cum_W N spread diameter).getD (N.length - 1) 0 * 0.5)
    (hcross : ¬ (cum_W N spread diameter).getD k 0
        < (cum_W N spread diameter).getD (N.length - 1) 0 * 0.5) :
    (∀ j, j < N.length →
      (cum_W N spread diameter).getD j 0
        = W_const * ∑ i ∈ Finset.range (j + 1),
            N.getD i 0 * spread.getD i 0 * diameter.getD i 0 ^ 3) ∧
    calculate_D0 N spread diameter
      = some (PyFloat.fin (diameter.getD (k - 1) 0 +
          (0.5 * (cum_W N spread diameter).getD (N.length - 1) 0
              - (cum_W N spread diameter).getD (k - 1) 0) /
            (((cum_W N spread diameter).getD k 0 - (cum_W N spread diameter).getD (k - 1) 0) /
              (diameter.getD k 0 - diameter.getD (k - 1) 0)))) := by
  have hclen : (cum_W N spread diameter).length = N.length :=
    cum_W_length N spread diameter hs hd
  refine ⟨fun j hj => cum_W_getD N spread diameter hs hd hj, ?_⟩
  have hcl0 : ¬ (cum_W N spread diameter).length = 0 := by omega
  have hidx : indexFalse (cum_W N spread diameter)
      ((cum_W N spread diameter).getD ((cum_W N spread diameter).length - 1) 0 * 0.5)
        = some k := by
    apply indexFalse_eq _ _ k (by omega)
    · intro j hj
      rw [hclen]
      exact hbefore j hj
    · rw [hclen]
      exact hcross
  have e1 : ((k : ℤ) - 1 + 1) = ((k : ℕ) : ℤ) := by ring
  have e2 : ((k : ℤ) - 1) = (((k - 1 : ℕ)) : ℤ) := by omega
  have hc1 : pyGetI (cum_W N spread diameter) ((k : ℤ) - 1 + 1)
      = some ((cum_W N spread diameter).getD k 0) := by
    rw [e1, pyGetI_natCast _ k (by omega)]
  have hc0 : pyGetI (cum_W N spread diameter) ((k : ℤ) - 1)
      = some ((cum_W N spread diameter).getD (k - 1) 0) := by
    rw [e2, pyGetI_natCast _ (k - 1) (by omega)]
  have hd1 : pyGetI diameter ((k : ℤ) - 1 + 1) = some (diameter.getD k 0) := by
    rw [e1, pyGetI_natCast _ k (by omega)]
  have hd0 : pyGetI diameter ((k : ℤ) - 1) = some (diameter.getD (k - 1) 0) := by
    rw [e2, pyGetI_natCast _ (k - 1) (by omega)]
  rw [calculate_D0, D0_core_eval _ _ k hcl0 hidx,
    D0_interp_eval _ _ k _ _ _ _ hc1 hc0 hd1 hd0]
  have hddpos : (0 : ℝ) < diameter.getD k 0 - diameter.getD (k - 1) 0 := by linarith
  have hcc : (0 : ℝ)
      < (cum_W N spread diameter).getD k 0 - (cum_W N spread diameter).getD (k - 1) 0 := by
    have hb := hbefore (k - 1) (by omega)
    have hcr := not_lt.mp hcross
    linarith
  have hslope : npDiv
      ((cum_W N spread diameter).getD k 0 - (cum_W N spread diameter).getD (k - 1) 0)
      (diameter.getD k 0 - diameter.getD (k - 1) 0)
      = PyFloat.fin
          (((cum_W N spread diameter).getD k 0 - (cum_W N spread diameter).getD (k - 1) 0) /
            (diameter.getD k 0 - diameter.getD (k - 1) 0)) := by
    rw [npDiv, if_neg hddpos.ne']
  rw [hslope]
  have hsne : (((cum_W N spread diameter).getD k 0
        - (cum_W N spread diameter).getD (k - 1) 0) /
      (diameter.getD k 0 - diameter.getD (k - 1) 0)) ≠ 0 :=
    (div_pos hcc hddpos).ne'
  simp only [pfDivF]
  rw [npDiv, if_neg hsne]
  simp only [pfAddF]
  rw [hclen]

/-- Witness for the C8 theorem at the concrete timestep `Nd[t] = [1, 3]`,
`spread = [1, 1]`, `diameter = [1, 2]`, whose half-mass crossing is at
`k = 1` (`cum_W = [C, 25·C]`, half mass `12.5·C`). -/
theorem calculate_D0_interpolation_witness :
    (([(1 : ℝ), 2]).getD (1 - 1) 0 < ([(1 : ℝ), 2]).getD 1 0) ∧
    ((∀ j, j < ([(1 : ℝ), 3]).length →
      (cum_W ([(1 : ℝ), 3]) ([(1 : ℝ), 1]) ([(1 : ℝ), 2])).getD j 0
        = W_const * ∑ i ∈ Finset.range (j + 1),
            ([(1 : ℝ), 3]).getD i 0 * ([(1 : ℝ), 1]).getD i 0 * ([(1 : ℝ), 2]).getD i 0 ^ 3) ∧
    calculate_D0 ([(1 : ℝ), 3]) ([(1 : ℝ), 1]) ([(1 : ℝ), 2])
      = some (PyFloat.fin (([(1 : ℝ), 2]).getD (1 - 1) 0 +
          (0.5 * (cum_W ([(1 : ℝ), 3]) ([(1 : ℝ), 1]) ([(1 : ℝ), 2])).getD (([(1 : ℝ), 3]).length - 1) 0
              - (cum_W ([(1 : ℝ), 3]) ([(1 : ℝ), 1]) ([(1 : ℝ), 2])).getD (1 - 1) 0) /
            (((cum_W ([(1 : ℝ), 3]) ([(1 : ℝ), 1]) ([(1 : ℝ), 2])).getD 1 0 - (cum_W ([(1 : ℝ), 3]) ([(1 : ℝ), 1]) ([(1 : ℝ), 2])).getD (1 - 1) 0) /
              (([(1 : ℝ), 2]).getD 1 0 - ([(1 : ℝ), 2]).getD (1 - 1) 0))))) :=
  ⟨by norm_num, calculate_D0_interpolation [1, 3] [1, 1] [1, 2] 1 rfl rfl (le_refl 1)
    (by norm_num)
    (by norm_num)
    (by
      intro j hj
      have hj0 : j = 0 := by omega
      subst hj0
      have hcum : cum_W [1, 3] [1, 1] [1, 2] = [W_const * 1, W_const * 25] := by
        simp [cum_W, cumsum]
        norm_num
      have hC : 0 < W_const := by rw [W_const]; positivity
      rw [hcum]
      simp only [List.length_cons, List.length_nil, List.getD_cons_zero, List.getD_cons_succ]
      nlinarith)
    (by
      have hcum : cum_W [1, 3] [1, 1] [1, 2] = [W_const * 1, W_const * 25] := by
        simp [cum_W, cumsum]
        norm_num
      have hC : 0 < W_const := by rw [W_const]; positivity
      rw [hcum]
      simp only [List.length_cons, List.length_nil, List.getD_cons_zero, List.getD_cons_succ]
      push_neg
      nlinarith)⟩
